import Mathlib

/-!
# libsugar: `sugar::Result<T, E>`, `sugar::Result<void, E>`, `let` and `also`

A shallow embedding of `result/Result.h` and `sugar/effect.hpp`.

* The discriminant `state` and the anonymous union `{ T val; E err; }` are kept as two
  separate fields, as in the class: nothing in the type ties the member that lives in the
  union to the discriminant.
* A member function that mutates `*this` becomes a function returning the new object;
  `Move`, which also writes to its argument, returns destination and source.
* `throw` becomes the `error` side of `Except Exception`.
* Assignment through a union member in which no object of that member lives has no defined
  behaviour; `Copy` and `Move`, which can do that, return an `Option`, `none` for it.
* A callable `F` is a function that threads an environment, so that a call can be observed.
* Only what can be instantiated is embedded. The member templates `map` and `mapErr` of
  both classes end in `return *this;` inside a `const` member, and the classes declare no
  constructor taking a `const Result`; `operator=(const Result &)` hands its `const`
  argument to `Copy(Result &)`. None of them has an embedding here.
-/

namespace sugar

/-! ## Data model -/

/-- The exceptions thrown by the library: `std::runtime_error(what)`. -/
inductive Exception where
  | runtime_error (what : String)
deriving DecidableEq, Repr

/-- The private `enum class State : uint8_t { Ok = 0, Err = 255, Uninit = 205 }`. -/
inductive State where
  | Ok
  | Err
  | Uninit
deriving DecidableEq, Repr

/-- The enumerator values of `State`, as stored in its `uint8_t`. -/
def State.toUInt8 : State → Nat
  | State.Ok => 0
  | State.Err => 255
  | State.Uninit => 205

/-- What the template uses of a payload type besides copying it:
`dflt` is the object `new (p) α` leaves at `p`, `residue x` is what move assignment leaves
in a source that held `x`, and `indet` is what an access through a union member yields
when no object of that member lives in the union. -/
class Payload (α : Type) where
  dflt : α
  residue : α → α
  indet : α

/-- The anonymous `union { T val; E err; }`: which member lives in it, and its value. -/
inductive Storage (T E : Type) where
  | empty
  | val (v : T)
  | err (e : E)
deriving DecidableEq, Repr

/-- The object `Result<T, E>`: `State state; union { T val; E err; };`. -/
structure Result (T E : Type) where
  state : State
  u : Storage T E
deriving DecidableEq, Repr

/-- A callable `F` taking an `α` and returning a `β`; the environment `σ` is whatever the
call can change (a counter of its invocations, for instance). -/
abbrev Callable (σ α β : Type) := α → σ → β × σ

/-- A callable without side effects. -/
def Callable.pure {σ α β : Type} (f : α → β) : Callable σ α β :=
  fun a env => (f a, env)

/-- A callable that counts its invocations in the environment. -/
def Callable.counting {α β : Type} (f : α → β) : Callable Nat α β :=
  fun a calls => (f a, calls + 1)

section Union

variable {T E : Type}

/-- Reading the member `val`. -/
def Storage.getVal [Payload T] : Storage T E → T
  | Storage.val v => v
  | _ => Payload.indet

/-- Reading the member `err`. -/
def Storage.getErr [Payload E] : Storage T E → E
  | Storage.err e => e
  | _ => Payload.indet

/-- Embeds `new (&val) T{v}` and the member initialiser `val(v)`: a `T` equal to `v` now lives in
the union. Whatever lived there before is overwritten, no destructor runs. -/
def Storage.constructVal (_ : Storage T E) (v : T) : Storage T E :=
  Storage.val v

/-- Embeds `new (&err) E{e}` and the member initialiser `err(e)`. -/
def Storage.constructErr (_ : Storage T E) (e : E) : Storage T E :=
  Storage.err e

/-- Embeds `val = v`: assignment through the member `val`. It runs the assignment operator
of `T` on the `T` that lives in the union and constructs nothing; when no `T` lives there
the operator has no object to run on and no result is defined, `none` (as for a class type
such as `std::string`; no exception is made for a `T` whose assignment is trivial). -/
def Storage.assignVal : Storage T E → T → Option (Storage T E)
  | Storage.val _, v => some (Storage.val v)
  | _, _ => none

/-- Embeds `err = e`: assignment through the member `err`; undefined, `none`, when no `E`
lives in the union. -/
def Storage.assignErr : Storage T E → E → Option (Storage T E)
  | Storage.err _, e => some (Storage.err e)
  | _, _ => none

/-- The source side of `val = std::move(other.val)`: a live `val` keeps its residue. -/
def Storage.movedVal [Payload T] : Storage T E → Storage T E
  | Storage.val v => Storage.val (Payload.residue v)
  | s => s

/-- The source side of `err = std::move(other.err)`. -/
def Storage.movedErr [Payload E] : Storage T E → Storage T E
  | Storage.err e => Storage.err (Payload.residue e)
  | s => s

end Union

namespace Result

variable {T E U F σ : Type}

/-! ## Construction -/

/-- Embeds `constexpr Result() { state = State::Uninit; }`. -/
def mkDefault : Result T E :=
  { state := State.Uninit, u := Storage.empty }

/-- Embeds `constexpr explicit Result(T val) : val(val) { state = State::Ok; }`. -/
def mkOk (val : T) : Result T E :=
  { state := State.Ok, u := Storage.constructVal Storage.empty val }

/-- Embeds `constexpr explicit Result(std::byte o, E err) : err(err) { state = State::Err; }`. -/
def mkErr (err : E) : Result T E :=
  { state := State.Err, u := Storage.constructErr Storage.empty err }

/-- Embeds `static Result Ok(T val) { return Result(val); }`. -/
def Ok (val : T) : Result T E :=
  mkOk val

/-- Embeds `static Result Err(E err) { return Result((std::byte) 0, err); }`. -/
def Err (err : E) : Result T E :=
  mkErr err

/-! ## Copy and move -/

/-- Embeds `void Copy(Result &other)`; `none` where its assignment has no `T` or `E` to
assign to. -/
def Copy [Payload T] [Payload E] (self other : Result T E) : Option (Result T E) :=
  let uninit := self.state == State.Uninit
  let self := { self with state := other.state }
  if self.state == State.Ok then
    if uninit then some { self with u := self.u.constructVal other.u.getVal }
    else (self.u.assignVal other.u.getVal).map fun u => { self with u := u }
  else if self.state == State.Err then
    if uninit then some { self with u := self.u.constructErr other.u.getErr }
    else (self.u.assignErr other.u.getErr).map fun u => { self with u := u }
  else some self

/-- Embeds `void Move(Result &&other)`; returns `*this` and `other` as they are afterwards,
`none` where its assignment has no `T` or `E` to assign to. -/
def Move [Payload T] [Payload E] (self other : Result T E) :
    Option (Result T E × Result T E) :=
  let uninit := self.state == State.Uninit
  let self := { self with state := other.state }
  if self.state == State.Ok then
    let self := if uninit then { self with u := self.u.constructVal Payload.dflt } else self
    (self.u.assignVal other.u.getVal).map fun u =>
      ({ self with u := u }, { other with u := other.u.movedVal })
  else
    let self := if uninit then { self with u := self.u.constructErr Payload.dflt } else self
    (self.u.assignErr other.u.getErr).map fun u =>
      ({ self with u := u }, { other with u := other.u.movedErr })

/-- Embeds `Result(Result &other) noexcept { Copy(other); }`. No member is initialised
before `Copy` runs, so `state` starts with an indeterminate value, the argument `garbage`,
and nothing lives in the union. `Copy` only compares that value with `State::Uninit`, so a
byte that is no enumerator acts as `garbage = State.Ok` does. -/
def copyConstruct [Payload T] [Payload E] (garbage : State) (other : Result T E) :
    Option (Result T E) :=
  Copy { state := garbage, u := Storage.empty } other

/-- Embeds `Result(Result &&other) noexcept { Move(std::forward<Result &&>(other)); }`;
`state` starts indeterminate as in `copyConstruct`. -/
def moveConstruct [Payload T] [Payload E] (garbage : State) (other : Result T E) :
    Option (Result T E × Result T E) :=
  Move { state := garbage, u := Storage.empty } other

/-- Embeds `Result &operator=(Result &&other) noexcept { Move(...); return *this; }`. -/
def moveAssign [Payload T] [Payload E] (self other : Result T E) :
    Option (Result T E × Result T E) :=
  Move self other

/-! ## Queries and accessors -/

/-- Embeds `bool IsOk() const { return state == State::Ok; }`. -/
def IsOk (self : Result T E) : Bool :=
  self.state == State.Ok

/-- Embeds `bool IsErr() const { return state == State::Err; }`. -/
def IsErr (self : Result T E) : Bool :=
  self.state == State.Err

/-- Embeds `T &UnwrapOk()` and `const T &UnwrapOk() const` (the two bodies are the same). -/
def UnwrapOk [Payload T] (self : Result T E) : Except Exception T :=
  if self.IsOk then
    Except.ok self.u.getVal
  else
    Except.error (Exception.runtime_error "try to extract the result of err with ok")

/-- Embeds `E &UnwrapErr()` and `const E &UnwrapErr() const`. -/
def UnwrapErr [Payload E] (self : Result T E) : Except Exception E :=
  if self.IsErr then
    Except.ok self.u.getErr
  else
    Except.error (Exception.runtime_error "try to extract the result of ok with err")

/-- Embeds `T &UnsafeOk() { return val; }`. -/
def UnsafeOk [Payload T] (self : Result T E) : T :=
  self.u.getVal

/-- Embeds `E &UnsafeErr() { return err; }`. -/
def UnsafeErr [Payload E] (self : Result T E) : E :=
  self.u.getErr

/-- Embeds `std::optional<T &> TryOk()` and its `const` overload. -/
def TryOk [Payload T] (self : Result T E) : Option T :=
  if self.IsOk then
    some self.u.getVal
  else
    none

/-- Embeds `std::optional<E &> TryErr()` and its `const` overload. -/
def TryErr [Payload E] (self : Result T E) : Option E :=
  if self.IsErr then
    some self.u.getErr
  else
    none

end Result

/-! ## Lifetime of the payload of `Result<T, E>` -/

section Lifetime

variable {T E : Type}

/-- Embeds `val.~T()`: a live `val` ends; there is no `val` to end otherwise. -/
def Storage.destroyVal : Storage T E → Storage T E
  | Storage.val _ => Storage.empty
  | s => s

/-- Embeds `err.~E()`. -/
def Storage.destroyErr : Storage T E → Storage T E
  | Storage.err _ => Storage.empty
  | s => s

/-- Embeds `~Result()`: `if (state == State::Ok) val.~T(); else if (state == State::Err)
err.~E();`. The value is what is still alive in the union when the object is gone. -/
def Result.destroy (self : Result T E) : Storage T E :=
  if self.state == State.Ok then
    self.u.destroyVal
  else if self.state == State.Err then
    self.u.destroyErr
  else
    self.u

/-- The payload invariant in the words of the data model: the member alive in the union is
the one the discriminant selects, a `T` when Ok, an `E` when Err, none when Uninit. -/
def Result.liveMatchesState (self : Result T E) : Bool :=
  match self.state, self.u with
  | State.Ok, Storage.val _ => true
  | State.Err, Storage.err _ => true
  | State.Uninit, Storage.empty => true
  | _, _ => false

end Lifetime

/-! ## `Result<void, E>` -/

/-- The private `enum class State : uint8_t { Ok = 0, Err = 255 }` of `Result<void, E>`. -/
inductive ResultVoid.State where
  | Ok
  | Err
deriving DecidableEq, Repr

/-- The enumerator values of the `State` of `Result<void, E>`. -/
def ResultVoid.State.toUInt8 : ResultVoid.State → Nat
  | ResultVoid.State.Ok => 0
  | ResultVoid.State.Err => 255

/-- The object `Result<void, E>`: `State state; E err;`. Here `err` is a data member of
the class itself and not of a union: an `E` is constructed with the object, by default
initialisation where no initialiser names it, and is there whatever `state` is. -/
structure ResultVoid (E : Type) where
  state : ResultVoid.State
  err : E
deriving DecidableEq, Repr

namespace ResultVoid

variable {E U F σ : Type}

/-- Embeds `constexpr explicit Result() { state = State::Ok; }`; `err` is
default-initialised. -/
def mkDefault [Payload E] : ResultVoid E :=
  { state := State.Ok, err := Payload.dflt }

/-- Embeds `constexpr explicit Result(E err) : err(err) { state = State::Err; }`. -/
def mkErr (err : E) : ResultVoid E :=
  { state := State.Err, err := err }

/-- Embeds `static Result Ok() { return Result(); }`. -/
def Ok [Payload E] : ResultVoid E :=
  mkDefault

/-- Embeds `static Result Err(E err) { return Result(err); }`. -/
def Err (err : E) : ResultVoid E :=
  mkErr err

/-- Embeds `void Copy(Result &other)` of `Result<void, E>`. Both `new (&err) E{other.err}`
and `err = other.err` leave `err` equal to `other.err`. -/
def Copy (self other : ResultVoid E) : ResultVoid E :=
  let is_ok := self.state == State.Ok
  let self := { self with state := other.state }
  if self.state == State.Err then
    if is_ok then { self with err := other.err }
    else { self with err := other.err }
  else self

/-- Embeds `void Move(Result &&other)` of `Result<void, E>`; returns `*this` and `other`
as they are afterwards. -/
def Move [Payload E] (self other : ResultVoid E) : ResultVoid E × ResultVoid E :=
  let is_ok := self.state == State.Ok
  let self := { self with state := other.state }
  if self.state == State.Err then
    let self := if is_ok then { self with err := Payload.dflt } else self
    ({ self with err := other.err }, { other with err := Payload.residue other.err })
  else (self, other)

/-- Embeds `Result(Result &other) noexcept { Copy(other); }`: `err` is default-initialised,
`state` starts with an indeterminate value, the argument `garbage`. -/
def copyConstruct [Payload E] (garbage : State) (other : ResultVoid E) : ResultVoid E :=
  Copy { state := garbage, err := Payload.dflt } other

/-- Embeds `Result(Result &&other) noexcept { Move(std::forward<Result &&>(other)); }`. -/
def moveConstruct [Payload E] (garbage : State) (other : ResultVoid E) :
    ResultVoid E × ResultVoid E :=
  Move { state := garbage, err := Payload.dflt } other

/-- Embeds `Result &operator=(Result &&other) noexcept { Move(...); return *this; }`. -/
def moveAssign [Payload E] (self other : ResultVoid E) : ResultVoid E × ResultVoid E :=
  Move self other

/-- Embeds `bool IsOk() const { return state == State::Ok; }`. -/
def IsOk (self : ResultVoid E) : Bool :=
  self.state == State.Ok

/-- Embeds `bool IsErr() const { return state == State::Err; }`. -/
def IsErr (self : ResultVoid E) : Bool :=
  self.state == State.Err

/-- Embeds `void UnwrapOk() const`. -/
def UnwrapOk (self : ResultVoid E) : Except Exception Unit :=
  if self.IsOk then
    Except.ok ()
  else
    Except.error (Exception.runtime_error "try to extract the result of err with ok")

/-- Embeds `E &UnwrapErr() const`. -/
def UnwrapErr (self : ResultVoid E) : Except Exception E :=
  if self.IsErr then
    Except.ok self.err
  else
    Except.error (Exception.runtime_error "try to extract the result of ok with err")

/-- Embeds `void UnsafeOk() const {}`. -/
def UnsafeOk (_ : ResultVoid E) : Unit :=
  ()

/-- Embeds `E &UnsafeErr() { return err; }` and its `const` overload. -/
def UnsafeErr (self : ResultVoid E) : E :=
  self.err

/-- Embeds `bool TryOk() const`. -/
def TryOk (self : ResultVoid E) : Bool :=
  if self.IsOk then
    true
  else
    false

/-- Embeds `std::optional<E &> TryErr()` and its `const` overload. -/
def TryErr (self : ResultVoid E) : Option E :=
  if self.IsErr then
    some self.err
  else
    none

end ResultVoid

/-! ## `sugar/effect.hpp` -/

/-- A callable that records the arguments it is invoked with, in order. -/
def Callable.recording {α β : Type} (f : α → β) : Callable (List α) α β :=
  fun a seen => (f a, seen ++ [a])

/-- A callable invoked on a forwarded argument, `f(std::forward<T>(v))`: besides its result
and its environment it decides what is left in `v`, which it receives by reference. -/
abbrev ForwardCallable (σ α β : Type) := α → σ → β × α × σ

/-- A callable whose parameter is `const T &`, or is taken by value from an lvalue (a
copy): it leaves its argument as it was. -/
def Callable.observing {σ α β : Type} (f : Callable σ α β) : ForwardCallable σ α β :=
  fun a env => ((f a env).1, a, (f a env).2)

/-- A callable whose parameter is taken by value, invoked on an rvalue: the parameter is
move-constructed from the argument, which keeps the residue of the move. -/
def Callable.consuming {σ α β : Type} [Payload α] (f : Callable σ α β) :
    ForwardCallable σ α β :=
  fun a env => ((f a env).1, Payload.residue a, (f a env).2)

/-- The function object type `struct Let`. -/
structure Let where
deriving DecidableEq, Repr

/-- The function object type `struct Also`. -/
structure Also where
deriving DecidableEq, Repr

/-- Embeds `Let::operator()(T &&v, F f)`: `return f(std::forward<T>(v));`. -/
def Let.call {σ T U : Type} (_ : Let) (v : T) (f : Callable σ T U) (env : σ) : U × σ :=
  f v env

/-- Embeds `Also::operator()(T &&v, F f)`: `f(std::forward<T>(v)); return
std::forward<T>(v);`. What f returns is dropped; what is returned is `v` as the call of f
left it. -/
def Also.call {σ T U : Type} (_ : Also) (v : T) (f : ForwardCallable σ T U) (env : σ) :
    T × σ :=
  let r := f v env
  (r.2.1, r.2.2)

/-- The object `Let let;` (`let` is a keyword here). -/
def let_ : Let :=
  {}

/-- The object `Also also;`. -/
def also : Also :=
  {}

/-- Natural numbers as a payload type: default `0`, moving out leaves the value. -/
instance instPayloadNat : Payload Nat where
  dflt := 0
  residue := fun n => n
  indet := 0

/-- Strings as a payload type: default `""`, moving out leaves the empty string. -/
instance instPayloadString : Payload String where
  dflt := ""
  residue := fun _ => ""
  indet := ""

/-! ## Lemmas -/

/-- The three enumerators are stored as three different bytes, so comparing `state` is
comparing enumerators. -/
theorem State.toUInt8_injective (a b : State) (h : a.toUInt8 = b.toUInt8) : a = b := by
  cases a <;> cases b <;> simp_all [State.toUInt8]

theorem State.toUInt8_lt (a : State) : a.toUInt8 < 256 := by
  cases a <;> simp [State.toUInt8]

namespace Result

variable {T E U F σ : Type}

theorem Ok_state (v : T) : (Result.Ok v : Result T E).state = State.Ok := rfl

theorem Err_state (e : E) : (Result.Err e : Result T E).state = State.Err := rfl

theorem mkDefault_state : (Result.mkDefault : Result T E).state = State.Uninit := rfl

theorem eq_Ok_of (r : Result T E) (v : T) (hs : r.state = State.Ok)
    (hu : r.u = Storage.val v) : r = Result.Ok v := by
  cases r
  simp_all [Result.Ok, mkOk, Storage.constructVal]

theorem eq_Err_of (r : Result T E) (e : E) (hs : r.state = State.Err)
    (hu : r.u = Storage.err e) : r = Result.Err e := by
  cases r
  simp_all [Result.Err, mkErr, Storage.constructErr]

theorem IsOk_iff (r : Result T E) : r.IsOk = true ↔ r.state = State.Ok := by
  simp [IsOk]

theorem IsErr_iff (r : Result T E) : r.IsErr = true ↔ r.state = State.Err := by
  simp [IsErr]

/-- The factories and the default constructor establish the payload invariant. -/
theorem liveMatchesState_of_construction (v : T) (e : E) :
    (Result.Ok v : Result T E).liveMatchesState = true
    ∧ (Result.Err e : Result T E).liveMatchesState = true
    ∧ (Result.mkDefault : Result T E).liveMatchesState = true := by
  exact ⟨rfl, rfl, rfl⟩

/-- When the invariant holds, `~Result()` leaves nothing alive. -/
theorem destroy_of_liveMatchesState (r : Result T E) (h : r.liveMatchesState = true) :
    r.destroy = Storage.empty := by
  rcases r with ⟨st, u⟩
  cases st <;> cases u <;>
    simp_all [liveMatchesState, destroy, Storage.destroyVal, Storage.destroyErr]

/-! ## Copy and move, where they are defined -/

/-- Whatever `Copy` returns has the discriminant of its argument. -/
theorem Copy_some_state [Payload T] [Payload E] (self other d : Result T E)
    (h : Copy self other = some d) : d.state = other.state := by
  unfold Copy at h
  rcases self with ⟨ss, su⟩
  cases hs : other.state <;> cases ss <;> cases su <;>
    simp_all [Storage.assignVal, Storage.assignErr] <;>
    (subst h; rfl)

/-- Whatever `Move` returns has, on both sides, the discriminant its argument had. -/
theorem Move_some_state [Payload T] [Payload E] (self other d s : Result T E)
    (h : Move self other = some (d, s)) : d.state = other.state ∧ s.state = other.state := by
  unfold Move at h
  rcases self with ⟨ss, su⟩
  cases hs : other.state <;> cases ss <;> cases su <;>
    simp_all [Storage.assignVal, Storage.assignErr, Storage.constructVal,
      Storage.constructErr] <;>
    (obtain ⟨h1, h2⟩ := h; subst h1; subst h2; simp [hs])

/-- `Move` is defined when the destination is Uninit, and when it has the variant of the
source with that payload alive. -/
theorem Move_defined [Payload T] [Payload E] (self other : Result T E)
    (hsrc : other.state ≠ State.Uninit)
    (hdst : self.state = State.Uninit
      ∨ (self.state = other.state ∧ self.liveMatchesState = true)) :
    ∃ d s, Move self other = some (d, s) := by
  unfold Move
  rcases self with ⟨ss, su⟩
  cases hs : other.state <;> cases ss <;> cases su <;>
    simp_all [Storage.assignVal, Storage.assignErr, Storage.constructVal,
      Storage.constructErr, liveMatchesState]

/-- After a `Copy` from a source that is Ok or Err the payload invariant holds. -/
theorem Copy_some_liveMatchesState [Payload T] [Payload E] (self other d : Result T E)
    (hsrc : other.state ≠ State.Uninit) (h : Copy self other = some d) :
    d.liveMatchesState = true := by
  unfold Copy at h
  rcases self with ⟨ss, su⟩
  cases hs : other.state <;> cases ss <;> cases su <;>
    simp_all [Storage.assignVal, Storage.assignErr, Storage.constructVal,
      Storage.constructErr] <;>
    (subst h; simp [liveMatchesState])

/-- After a `Move` from a source that is Ok or Err the payload invariant holds in the
destination. -/
theorem Move_some_liveMatchesState [Payload T] [Payload E] (self other d s : Result T E)
    (hsrc : other.state ≠ State.Uninit) (h : Move self other = some (d, s)) :
    d.liveMatchesState = true := by
  unfold Move at h
  rcases self with ⟨ss, su⟩
  cases hs : other.state <;> cases ss <;> cases su <;>
    simp_all [Storage.assignVal, Storage.assignErr, Storage.constructVal,
      Storage.constructErr] <;>
    (obtain ⟨h1, _⟩ := h; subst h1; simp [liveMatchesState])

/-! ## Accessors -/

/-- C3: for every result, an Uninit one included, `UnwrapOk()` returns exactly when the
discriminant is Ok, and then returns the success payload; with discriminant Err or Uninit
it throws `runtime_error("try to extract the result of err with ok")`. So
`Ok(v).UnwrapOk()` is `v`, and `Err(e).UnwrapOk()` and `Result().UnwrapOk()` throw. -/
theorem UnwrapOk_returns_iff_Ok [Payload T] (r : Result T E) (v : T) (e : E) :
    ((∃ x, r.UnwrapOk = Except.ok x) ↔ r.state = State.Ok)
    ∧ (∀ x, r.state = State.Ok → r.u = Storage.val x → r.UnwrapOk = Except.ok x)
    ∧ (r.state = State.Err ∨ r.state = State.Uninit →
        r.UnwrapOk
          = Except.error (Exception.runtime_error "try to extract the result of err with ok"))
    ∧ (Result.Ok v : Result T E).UnwrapOk = Except.ok v
    ∧ (Result.Err e : Result T E).UnwrapOk
        = Except.error (Exception.runtime_error "try to extract the result of err with ok")
    ∧ (Result.mkDefault : Result T E).UnwrapOk
        = Except.error (Exception.runtime_error "try to extract the result of err with ok") := by
  refine ⟨?_, ?_, ?_, rfl, rfl, rfl⟩
  · cases hs : r.state <;> simp [UnwrapOk, IsOk, hs]
  · intro x hs hu
    simp [UnwrapOk, IsOk, hs, hu, Storage.getVal]
  · intro h
    rcases h with hs | hs <;> simp [UnwrapOk, IsOk, hs]

/-- C4: for every result, an Uninit one included, `UnwrapErr()` returns exactly when the
discriminant is Err, and then returns the error payload; with discriminant Ok or Uninit it
throws `runtime_error("try to extract the result of ok with err")`. So
`Err(e).UnwrapErr()` is `e`, and `Ok(v).UnwrapErr()` and `Result().UnwrapErr()` throw. -/
theorem UnwrapErr_returns_iff_Err [Payload E] (r : Result T E) (v : T) (e : E) :
    ((∃ x, r.UnwrapErr = Except.ok x) ↔ r.state = State.Err)
    ∧ (∀ x, r.state = State.Err → r.u = Storage.err x → r.UnwrapErr = Except.ok x)
    ∧ (r.state = State.Ok ∨ r.state = State.Uninit →
        r.UnwrapErr
          = Except.error (Exception.runtime_error "try to extract the result of ok with err"))
    ∧ (Result.Err e : Result T E).UnwrapErr = Except.ok e
    ∧ (Result.Ok v : Result T E).UnwrapErr
        = Except.error (Exception.runtime_error "try to extract the result of ok with err")
    ∧ (Result.mkDefault : Result T E).UnwrapErr
        = Except.error (Exception.runtime_error "try to extract the result of ok with err") := by
  refine ⟨?_, ?_, ?_, rfl, rfl, rfl⟩
  · cases hs : r.state <;> simp [UnwrapErr, IsErr, hs]
  · intro x hs hu
    simp [UnwrapErr, IsErr, hs, hu, Storage.getErr]
  · intro h
    rcases h with hs | hs <;> simp [UnwrapErr, IsErr, hs]

/-! ## Factories and queries -/

/-- C5: for every `v`, `Ok(v).IsOk()` is true and `Ok(v).IsErr()` is false. -/
theorem Ok_IsOk_not_IsErr (v : T) :
    (Result.Ok v : Result T E).IsOk = true ∧ (Result.Ok v : Result T E).IsErr = false := by
  exact ⟨rfl, rfl⟩

/-- C6: for every `e`, `Err(e).IsErr()` is true and `Err(e).IsOk()` is false. -/
theorem Err_IsErr_not_IsOk (e : E) :
    (Result.Err e : Result T E).IsErr = true ∧ (Result.Err e : Result T E).IsOk = false := by
  exact ⟨rfl, rfl⟩

/-- C7: `TryOk()` and `TryErr()` are total, there is no throw in them: for every result,
Ok, Err or Uninit, `TryOk()` is present exactly when `IsOk()` and then holds the success
payload, and `TryErr()` is present exactly when `IsErr()` and then holds the error
payload. On `Result()` both are absent. -/
theorem TryOk_TryErr_follow_discriminant [Payload T] [Payload E] (r : Result T E)
    (v : T) (e : E) :
    r.TryOk.isSome = r.IsOk
    ∧ r.TryErr.isSome = r.IsErr
    ∧ (∀ x, r.state = State.Ok → r.u = Storage.val x → r.TryOk = some x)
    ∧ (∀ x, r.state = State.Err → r.u = Storage.err x → r.TryErr = some x)
    ∧ (Result.Ok v : Result T E).TryOk = some v
    ∧ (Result.Ok v : Result T E).TryErr = none
    ∧ (Result.Err e : Result T E).TryErr = some e
    ∧ (Result.Err e : Result T E).TryOk = none
    ∧ (Result.mkDefault : Result T E).TryOk = none
    ∧ (Result.mkDefault : Result T E).TryErr = none := by
  refine ⟨?_, ?_, ?_, ?_, rfl, rfl, rfl, rfl, rfl, rfl⟩
  · cases hs : r.state <;> simp [TryOk, IsOk, hs]
  · cases hs : r.state <;> simp [TryErr, IsErr, hs]
  · intro x hs hu
    simp [TryOk, IsOk, hs, hu, Storage.getVal]
  · intro x hs hu
    simp [TryErr, IsErr, hs, hu, Storage.getErr]

/-- C11: for every result `IsOk()` and `IsErr()` are never both true; when the discriminant
is not Uninit exactly one of them is true, `IsErr() == !IsOk()`. (On an Uninit result both
are false.) -/
theorem IsOk_IsErr_exclusive_exhaustive (r : Result T E) (v : T) (e : E) :
    ¬ (r.IsOk = true ∧ r.IsErr = true)
    ∧ (r.state ≠ State.Uninit → r.IsErr = !r.IsOk)
    ∧ (r.state ≠ State.Uninit → (r.IsOk = true ∨ r.IsErr = true))
    ∧ (r.state = State.Uninit → r.IsOk = false ∧ r.IsErr = false)
    ∧ (Result.Ok v : Result T E).IsErr = !(Result.Ok v : Result T E).IsOk
    ∧ (Result.Err e : Result T E).IsErr = !(Result.Err e : Result T E).IsOk := by
  refine ⟨?_, ?_, ?_, ?_, rfl, rfl⟩ <;> cases hs : r.state <;> simp [IsOk, IsErr, hs]

/-! ## Copy and move -/

/-- C8, evaluated where the code breaks it. The copy constructor calls `Copy` before any
member is initialised. Unless the indeterminate `state` happens to read `Uninit`, `Copy`
takes its assignment branch and runs `err = other.err` on a union in which no `E` was
constructed: copy construction from `Err("e")` has no defined result. Only when `state`
reads `Uninit` is the copy `Err("e")`. -/
theorem copyConstruct_assigns_to_unconstructed_err :
    copyConstruct State.Ok (Result.Err "e" : Result Nat String) = none
    ∧ copyConstruct State.Err (Result.Err "e" : Result Nat String) = none
    ∧ copyConstruct State.Uninit (Result.Err "e" : Result Nat String)
        = some (Result.Err "e") := by
  exact ⟨rfl, rfl, rfl⟩

/-- C9, evaluated where the code breaks it. `Move` constructs a payload only when the
destination was Uninit: `Ok(1)` move-assigned from `Err("e")` gets `state = Err` and then
runs `err = std::move(other.err)` on a union that holds the `T` and no `E`, and move
construction does the same on a union that holds nothing, unless the indeterminate `state`
reads `Uninit`. Neither has a defined result. Between two results of the same variant the
move is defined and both keep the discriminant. -/
theorem Move_assigns_to_unconstructed_err :
    (Result.Ok 1 : Result Nat String).moveAssign (Result.Err "e") = none
    ∧ moveConstruct State.Ok (Result.Err "e" : Result Nat String) = none
    ∧ (∃ d s, (Result.Err "a" : Result Nat String).moveAssign (Result.Err "e") = some (d, s)
        ∧ d = Result.Err "e" ∧ s.state = State.Err) := by
  refine ⟨rfl, rfl, ?_⟩
  exact ⟨_, _, rfl, rfl, rfl⟩

/-! ## The Uninit state -/

/-- C10, as stated, fails. Moving a default-constructed result into a default-constructed
one leaves the destination Uninit: the first move into it did not take it out of Uninit.
And a copy of a default-constructed result is constructed Uninit, whatever the
indeterminate `state` of the new object was: Uninit is entered without default
construction. -/
theorem Uninit_kept_from_Uninit_source :
    (∃ d s, (Result.mkDefault : Result Nat String).moveAssign Result.mkDefault = some (d, s)
        ∧ d.state = State.Uninit)
    ∧ copyConstruct State.Uninit (Result.mkDefault : Result Nat String)
        = some Result.mkDefault
    ∧ copyConstruct State.Ok (Result.mkDefault : Result Nat String) = some Result.mkDefault
    ∧ ¬ (∀ src d s : Result Nat String,
          (Result.mkDefault : Result Nat String).moveAssign src = some (d, s) →
          d.state ≠ State.Uninit) := by
  refine ⟨⟨_, _, rfl, rfl⟩, rfl, rfl, ?_⟩
  intro h
  exact h Result.mkDefault _ _ rfl rfl

/-- C10, amended to sources that are Ok or Err. Move assignment from such a source into a
result that is Uninit (a default-constructed one, at its first move), or that is of the
variant of the source with its payload alive, returns, and leaves the destination with the
discriminant of the source: it is taken out of Uninit, respectively stays Ok or Err. The
source keeps its discriminant. -/
theorem Uninit_left_by_move_from_Ok_or_Err [Payload T] [Payload E] (r src : Result T E)
    (hsrc : src.state ≠ State.Uninit)
    (hdst : r.state = State.Uninit ∨ (r.state = src.state ∧ r.liveMatchesState = true)) :
    ∃ d s, r.moveAssign src = some (d, s)
      ∧ d.state = src.state ∧ d.state ≠ State.Uninit ∧ s.state = src.state := by
  obtain ⟨d, s, h⟩ := Move_defined r src hsrc hdst
  obtain ⟨hd, hs⟩ := Move_some_state r src d s h
  exact ⟨d, s, h, hd, by rw [hd]; exact hsrc, hs⟩

/-- C10, amended, at a default-constructed destination and the source `Ok(1)`, and at the
destination `Err("a")` and the source `Err("e")`. -/
theorem Uninit_left_by_move_from_Ok_or_Err_witness :
    (∃ d s, (Result.mkDefault : Result Nat String).moveAssign (Result.Ok 1) = some (d, s)
        ∧ d.state = (Result.Ok 1 : Result Nat String).state ∧ d.state ≠ State.Uninit
        ∧ s.state = (Result.Ok 1 : Result Nat String).state)
    ∧ (∃ d s, (Result.Err "a" : Result Nat String).moveAssign (Result.Err "e") = some (d, s)
        ∧ d.state = (Result.Err "e" : Result Nat String).state ∧ d.state ≠ State.Uninit
        ∧ s.state = (Result.Err "e" : Result Nat String).state) :=
  ⟨Uninit_left_by_move_from_Ok_or_Err Result.mkDefault (Result.Ok 1) (by decide)
      (Or.inl rfl),
    Uninit_left_by_move_from_Ok_or_Err (Result.Err "a") (Result.Err "e") (by decide)
      (Or.inr ⟨rfl, rfl⟩)⟩

/-! ## Which payload is alive -/

/-- C18, evaluated where the code breaks it. `Move` treats every source that is not Ok as
Err (`Copy` tests `else if (state == State::Err)`, `Move` has a bare `else`): move
assignment of a default-constructed result into a default-constructed one sets
`state = Uninit` and runs `new(&err) E; err = std::move(other.err);`. The destination ends
with discriminant Uninit and an `E` alive in the union, against the invariant, and
`~Result()`, which destroys nothing when Uninit, leaves that `E` alive. -/
theorem Move_from_Uninit_leaves_err_alive [Payload T] [Payload E] :
    ∃ d s e, (Result.mkDefault : Result T E).moveAssign Result.mkDefault = some (d, s)
      ∧ d.state = State.Uninit
      ∧ d.u = Storage.err e
      ∧ d.liveMatchesState = false
      ∧ d.destroy = Storage.err e := by
  exact ⟨_, _, _, rfl, rfl, rfl, rfl, rfl⟩

end Result

namespace ResultVoid

variable {E U F σ : Type}

/-! ## `Result<void, E>` -/

theorem void_Copy_state (self other : ResultVoid E) :
    (Copy self other).state = other.state := by
  unfold Copy
  cases hs : other.state <;> cases hu : (self.state == State.Ok) <;> simp [hs]

theorem void_Move_fst_state [Payload E] (self other : ResultVoid E) :
    (Move self other).1.state = other.state := by
  unfold Move
  cases hs : other.state <;> cases hu : (self.state == State.Ok) <;> simp [hs]

theorem void_Move_snd_state [Payload E] (self other : ResultVoid E) :
    (Move self other).2.state = other.state := by
  unfold Move
  cases hs : other.state <;> simp [hs]

/-- C13: `Result<void, E>::Ok()` and a default-constructed `Result<void, E>` have
`IsOk()` true, `IsErr()` false, `TryOk()` true, and `UnwrapOk()` returns without
throwing. -/
theorem void_Ok_is_ok [Payload E] :
    (ResultVoid.Ok : ResultVoid E).IsOk = true
    ∧ (ResultVoid.Ok : ResultVoid E).IsErr = false
    ∧ (ResultVoid.Ok : ResultVoid E).TryOk = true
    ∧ (ResultVoid.Ok : ResultVoid E).UnwrapOk = Except.ok ()
    ∧ (ResultVoid.mkDefault : ResultVoid E).IsOk = true
    ∧ (ResultVoid.mkDefault : ResultVoid E).IsErr = false
    ∧ (ResultVoid.mkDefault : ResultVoid E).TryOk = true
    ∧ (ResultVoid.mkDefault : ResultVoid E).UnwrapOk = Except.ok () := by
  exact ⟨rfl, rfl, rfl, rfl, rfl, rfl, rfl, rfl⟩

/-- C14: for every `Result<void, E>`, `UnwrapOk()` throws
`runtime_error("try to extract the result of err with ok")` exactly when the discriminant
is Err and returns otherwise, `TryOk()` equals `IsOk()`, and for every `e` the result
`Err(e)` has `IsErr()` true and `UnwrapErr()` returns `e`. -/
theorem void_UnwrapOk_throws_iff_Err (r : ResultVoid E) (e : E) :
    (r.UnwrapOk
        = Except.error (Exception.runtime_error "try to extract the result of err with ok")
      ↔ r.state = State.Err)
    ∧ (r.UnwrapOk = Except.ok () ↔ r.state = State.Ok)
    ∧ r.TryOk = r.IsOk
    ∧ (ResultVoid.Err e).IsErr = true
    ∧ (ResultVoid.Err e).IsOk = false
    ∧ (ResultVoid.Err e).UnwrapErr = Except.ok e
    ∧ (ResultVoid.Err e).UnwrapOk
        = Except.error (Exception.runtime_error "try to extract the result of err with ok") := by
  refine ⟨?_, ?_, ?_, rfl, rfl, rfl, rfl⟩ <;>
    cases hs : r.state <;> simp [UnwrapOk, TryOk, IsOk, hs]

/-- C19, evaluated where the code breaks it. `err` is declared `E err;`, a member of the
class and not of a union, so `Result()` default-constructs it: `Ok()` has discriminant Ok
and holds an `E`, here the empty string, which `UnsafeErr()` hands out. `Move` touches
`err` only when the new discriminant is Err: `Err("boom")` move-assigned from `Ok()` has
discriminant Ok and still holds `"boom"`. -/
theorem void_Ok_holds_an_err :
    (ResultVoid.Ok : ResultVoid String).state = State.Ok
    ∧ (ResultVoid.Ok : ResultVoid String).err = ""
    ∧ (ResultVoid.Ok : ResultVoid String).UnsafeErr = ""
    ∧ ((ResultVoid.Err "boom").moveAssign ResultVoid.Ok).1
        = { state := State.Ok, err := "boom" } := by
  exact ⟨rfl, rfl, rfl, rfl⟩

end ResultVoid

/-! ## `let` and `also` -/

/-- C16, evaluated where the code breaks it. `Also::operator()` forwards `v` into f and
then returns the forwarded `v`. With an rvalue `"ab"` and an f that takes its parameter by
value, the parameter is move-constructed from `v`, and `also` returns what the move left,
the empty string, after the one call of f. With an f that leaves its argument alone
`also` returns `"ab"`. -/
theorem also_returns_moved_from_value :
    also.call "ab" (Callable.consuming (Callable.counting fun (_ : String) => ())) 0
        = ("", 1)
    ∧ also.call "ab" (Callable.observing (Callable.counting fun (_ : String) => ())) 0
        = ("ab", 1) := by
  exact ⟨rfl, rfl⟩

/-- C17: for every `v` and every callable f, `let(v, f)` returns `f(v)` and invokes f
exactly once: the environment is the one a single call `f(v)` leaves, a counting f shows one
call more, and a recording f has recorded `v` and nothing else. -/
theorem let_returns_result_calls_once {σ T U : Type} (v : T) (f : Callable σ T U)
    (g : T → U) (env : σ) (calls : Nat) (seen : List T) :
    let_.call v f env = f v env
    ∧ let_.call v (Callable.counting g) calls = (g v, calls + 1)
    ∧ let_.call v (Callable.recording g) seen = (g v, seen ++ [v])
    ∧ let_.call v (Callable.pure g) env = (g v, env) := by
  exact ⟨rfl, rfl, rfl, rfl⟩

end sugar
